import Mathlib

/-!
Verification of the `vnai` resource-quota and telemetry-relay subsystem.

The definitions below are a shallow embedding of the Python sources
`vnai/beam/quota.py`, `vnai/beam/metrics.py` and `vnai/flow/relay.py`:

* `Guardian.verify` embeds the sliding-window rate limiter (timestamps as
  integers, mirroring a controlled clock; Python percent on nonnegative
  integers agrees with `Int.emod`).
* `wrapLoop` embeds the quota-verification/retry/execution section of the
  decorator wrapper produced by `optimize`, including the
  `CleanErrorContext` context manager that surrounds `guardian.verify`.
* `loopStep` embeds the loop-detection section of the same wrapper.
* `Collector.record` embeds the metrics collector.
* `Conduit.dispatch` / `Conduit.retry_failed` embed the telemetry relay.
-/

/-- Per-resource limits, as in `Guardian.resource_limits` entries
`{"min": ..., "hour": ...}`. -/
structure Limits where
  min : ℕ
  hour : ℕ
deriving DecidableEq, Repr

/-- The usage counters of one resource type: `usage_counters[rt]["min"]`
and `usage_counters[rt]["hour"]`, lists of request timestamps. -/
structure GuardState where
  minWindow : List ℤ
  hourWindow : List ℤ
deriving DecidableEq, Repr

/-- Fresh counters: `defaultdict` yields empty lists on first use. -/
def GuardState.init : GuardState := ⟨[], []⟩

/-- Outcome of `Guardian.verify`: either `True` is returned, or a
`RateLimitExceeded(resource_type, limit_type, current_usage, limit_value,
retry_after)` is raised. -/
inductive VerifyResult where
  | ok
  | rateLimitExceeded (resource_type : String) (limit_type : String)
      (current_usage : ℕ) (limit_value : ℕ) (retry_after : ℤ)
deriving DecidableEq, Repr

/-- The `limit_type` field of a raised `RateLimitExceeded`, if any. -/
def VerifyResult.limitType : VerifyResult → Option String
  | .ok => none
  | .rateLimitExceeded _ lt _ _ _ => some lt

/-- The `retry_after` field of a raised `RateLimitExceeded`, if any. -/
def VerifyResult.retryAfter : VerifyResult → Option ℤ
  | .ok => none
  | .rateLimitExceeded _ _ _ _ ra => some ra

/-- `Guardian.verify(operation_id, resource_type)` at clock time `now`:
purge the minute window at cutoff `now - 60`; if its length has reached
`limits["min"]`, raise the minute error with
`retry_after = 60 - now % 60`; otherwise purge the hour window at cutoff
`now - 3600`; if its length has reached `limits["hour"]`, raise the hour
error with `retry_after = 3600 - now % 3600`; otherwise append `now` to
both windows and return `True`. -/
def Guardian.verify (resource_type : String) (limits : Limits) (now : ℤ)
    (s : GuardState) : VerifyResult × GuardState :=
  let minW := s.minWindow.filter fun t => decide (now - 60 < t)
  if minW.length ≥ limits.min then
    (.rateLimitExceeded resource_type "min" minW.length limits.min (60 - now % 60),
      ⟨minW, s.hourWindow⟩)
  else
    let hourW := s.hourWindow.filter fun t => decide (now - 3600 < t)
    if hourW.length ≥ limits.hour then
      (.rateLimitExceeded resource_type "hour" hourW.length limits.hour (3600 - now % 3600),
        ⟨minW, hourW⟩)
    else
      (.ok, ⟨minW ++ [now], hourW ++ [now]⟩)

/-- The timestamps of the calls that `verify` accepts, over a sequence of
call times, threading the guardian state. -/
def acceptedTimes (resource_type : String) (limits : Limits) :
    List ℤ → GuardState → List ℤ
  | [], _ => []
  | t :: ts, s =>
    match Guardian.verify resource_type limits t s with
    | (.ok, s') => t :: acceptedTimes resource_type limits ts s'
    | (_, s') => acceptedTimes resource_type limits ts s'

/-- Membership of a timestamp in the trailing window `(T - w, T]`. -/
def inWindow (w T x : ℤ) : Bool := decide (T - w < x ∧ x ≤ T)

/-- Claim C3: whenever, after purging stale timestamps, the 60-second
window has reached the minute limit and the 3600-second window has
reached the hour limit, `verify` raises the minute-limit error
(`limit_type = "min"`), not the hour-limit error. -/
theorem guardian_tie_break (rt : String) (L : Limits) (now : ℤ) (s : GuardState)
    (hmin : L.min ≤ (s.minWindow.filter fun t => decide (now - 60 < t)).length)
    (hhour : L.hour ≤ (s.hourWindow.filter fun t => decide (now - 3600 < t)).length) :
    (Guardian.verify rt L now s).1.limitType = some "min" := by
  simp only [Guardian.verify, ge_iff_le, if_pos hmin]
  rfl

/-- Witness for C3 at a concrete guardian state where both windows are at
their limits. -/
theorem guardian_tie_break_witness :
    (2 : ℕ) ≤ ((⟨[1, 2], [1, 2]⟩ : GuardState).minWindow.filter
        fun t => decide ((2 : ℤ) - 60 < t)).length ∧
    (2 : ℕ) ≤ ((⟨[1, 2], [1, 2]⟩ : GuardState).hourWindow.filter
        fun t => decide ((2 : ℤ) - 3600 < t)).length ∧
    (Guardian.verify "X" ⟨2, 2⟩ 2 ⟨[1, 2], [1, 2]⟩).1.limitType = some "min" :=
  ⟨by decide, by decide,
    guardian_tie_break "X" ⟨2, 2⟩ 2 ⟨[1, 2], [1, 2]⟩ (by decide) (by decide)⟩

/-- Claim C4: with minute limit 2 (hour limit 3000), calls at times 0 and
1 succeed, the call at time 2 raises the minute-limit error with
`retry_after = 60 - 2 % 60 = 58`, and the call at time 61 succeeds. -/
theorem guardian_minute_example :
    let L : Limits := ⟨2, 3000⟩
    let r1 := Guardian.verify "X" L 0 .init
    let r2 := Guardian.verify "X" L 1 r1.2
    let r3 := Guardian.verify "X" L 2 r2.2
    let r4 := Guardian.verify "X" L 61 r3.2
    r1.1 = .ok ∧ r2.1 = .ok ∧
      r3.1 = .rateLimitExceeded "X" "min" 2 2 (60 - 2 % 60) ∧
      r3.1.retryAfter = some 58 ∧ r4.1 = .ok := by
  decide

/-- Purging with a later cutoff subsumes an earlier purge. -/
lemma filter_cutoff_filter (c c' : ℤ) (h : c ≤ c') (l : List ℤ) :
    (l.filter fun x => decide (c < x)).filter (fun x => decide (c' < x)) =
      l.filter fun x => decide (c' < x) := by
  rw [List.filter_filter]
  refine List.filter_congr fun x _ => ?_
  by_cases hx : c' < x
  · have hcx : c < x := lt_of_le_of_lt h hx
    simp [hx, hcx]
  · simp [hx]

/-- Filtering with a pointwise weaker predicate keeps at least as many
elements. -/
lemma length_filter_mono (p q : ℤ → Bool) (l : List ℤ)
    (h : ∀ x, p x = true → q x = true) :
    (l.filter p).length ≤ (l.filter q).length := by
  rw [← List.countP_eq_length_filter, ← List.countP_eq_length_filter]
  exact List.countP_mono_left fun x _ => h x

/-- Invariant of the guardian state after processing a call at time `now`
with `acc` the timestamps accepted so far: the minute window is exactly
the accepted timestamps newer than `now - 60`; the hour window is the
accepted timestamps newer than some cutoff at most `now - 3600` (the hour
window is only purged when the minute check passes); and every trailing
window of accepted timestamps respects its limit. -/
def GuardInv (L : Limits) (now : ℤ) (acc : List ℤ) (s : GuardState) : Prop :=
  s.minWindow = (acc.filter fun x => decide (now - 60 < x)) ∧
  (∃ ch, ch ≤ now - 3600 ∧ s.hourWindow = (acc.filter fun x => decide (ch < x))) ∧
  (∀ T, (acc.filter (inWindow 60 T)).length ≤ L.min) ∧
  (∀ T, (acc.filter (inWindow 3600 T)).length ≤ L.hour)

/-- Appending an accepted timestamp preserves the trailing-window bound,
because at acceptance the purged window was strictly below its limit. -/
lemma window_bound_snoc (w lim : ℕ) (t : ℤ) (acc : List ℤ)
    (hcount : ∀ T, (acc.filter (inWindow w T)).length ≤ lim)
    (hnew : (acc.filter fun x => decide (t - w < x)).length < lim) :
    ∀ T, ((acc ++ [t]).filter (inWindow w T)).length ≤ lim := by
  intro T
  rw [List.filter_append]
  by_cases ht : inWindow w T t = true
  · have hTt : T - w < t ∧ t ≤ T := by
      have := of_decide_eq_true ht
      exact this
    have hsub : (acc.filter (inWindow w T)).length ≤
        (acc.filter fun x => decide (t - w < x)).length := by
      refine length_filter_mono _ _ _ fun x hx => ?_
      have hwin := of_decide_eq_true hx
      exact decide_eq_true (by omega)
    simp only [List.filter_cons, List.filter_nil, ht, if_true, List.length_append,
      List.length_cons, List.length_nil]
    omega
  · have hcT := hcount T
    simp only [List.filter_cons, List.filter_nil, Bool.not_eq_true] at ht ⊢
    simp only [ht, Bool.false_eq_true, if_false, List.length_append, List.length_nil]
    omega

/-- Main induction for claim C1: from any state satisfying the invariant,
running `verify` over a non-decreasing sequence of call times keeps every
trailing 60-second window of accepted timestamps within the minute limit
and every trailing 3600-second window within the hour limit. -/
lemma acceptedTimes_bounded (rt : String) (L : Limits) :
    ∀ (ts : List ℤ) (now : ℤ) (acc : List ℤ) (s : GuardState),
      List.Chain (· ≤ ·) now ts → GuardInv L now acc s →
      (∀ T, ((acc ++ acceptedTimes rt L ts s).filter (inWindow 60 T)).length ≤ L.min) ∧
      (∀ T, ((acc ++ acceptedTimes rt L ts s).filter (inWindow 3600 T)).length ≤ L.hour) := by
  intro ts
  induction ts with
  | nil =>
    intro now acc s _ hinv
    simpa [acceptedTimes] using ⟨hinv.2.2.1, hinv.2.2.2⟩
  | cons t ts ih =>
    intro now acc s hch hinv
    obtain ⟨hle, hch'⟩ := List.chain_cons.mp hch
    obtain ⟨hminW, ⟨ch, hchle, hhourW⟩, hcmin, hchour⟩ := hinv
    have hminW_t : s.minWindow.filter (fun x => decide (t - 60 < x)) =
        acc.filter fun x => decide (t - 60 < x) := by
      rw [hminW, filter_cutoff_filter _ _ (by omega)]
    have hhourW_t : s.hourWindow.filter (fun x => decide (t - 3600 < x)) =
        acc.filter fun x => decide (t - 3600 < x) := by
      rw [hhourW, filter_cutoff_filter _ _ (by omega)]
    rw [acceptedTimes]
    simp only [Guardian.verify]
    split_ifs with h1 h2
    · -- minute limit reached: call rejected, hour window untouched
      exact ih t acc ⟨s.minWindow.filter fun x => decide (t - 60 < x), s.hourWindow⟩
        hch' ⟨hminW_t, ⟨ch, by omega, hhourW⟩, hcmin, hchour⟩
    · -- hour limit reached: call rejected, both windows purged
      exact ih t acc
        ⟨s.minWindow.filter fun x => decide (t - 60 < x),
          s.hourWindow.filter fun x => decide (t - 3600 < x)⟩
        hch' ⟨hminW_t, ⟨t - 3600, le_refl _, hhourW_t⟩, hcmin, hchour⟩
    · -- call accepted: timestamp appended to both windows
      have hminlt : (acc.filter fun x => decide (t - 60 < x)).length < L.min := by
        rw [← hminW_t]; omega
      have hhourlt : (acc.filter fun x => decide (t - 3600 < x)).length < L.hour := by
        rw [← hhourW_t]; omega
      have hmin_acc' : ((acc ++ [t]).filter fun x => decide (t - 60 < x)) =
          (s.minWindow.filter fun x => decide (t - 60 < x)) ++ [t] := by
        rw [List.filter_append, hminW_t]
        simp
      have hhour_acc' : ((acc ++ [t]).filter fun x => decide (t - 3600 < x)) =
          (s.hourWindow.filter fun x => decide (t - 3600 < x)) ++ [t] := by
        rw [List.filter_append, hhourW_t]
        simp
      have := ih t (acc ++ [t])
        ⟨(s.minWindow.filter fun x => decide (t - 60 < x)) ++ [t],
          (s.hourWindow.filter fun x => decide (t - 3600 < x)) ++ [t]⟩
        hch'
        ⟨hmin_acc'.symm, ⟨t - 3600, le_refl _, hhour_acc'.symm⟩,
          window_bound_snoc 60 L.min t acc hcmin hminlt,
          window_bound_snoc 3600 L.hour t acc hchour hhourlt⟩
      simpa using this

/-- Claim C1: over any non-decreasing sequence of `verify` call times on a
resource type with limits `L`, the number of accepted calls inside any
trailing 60-second interval never exceeds the minute limit, and the number
inside any trailing 3600-second interval never exceeds the hour limit. -/
theorem guardian_window_correctness (rt : String) (L : Limits) (ts : List ℤ)
    (hts : ts.Chain' (· ≤ ·)) (T : ℤ) :
    ((acceptedTimes rt L ts .init).filter (inWindow 60 T)).length ≤ L.min ∧
    ((acceptedTimes rt L ts .init).filter (inWindow 3600 T)).length ≤ L.hour := by
  cases ts with
  | nil => simp [acceptedTimes]
  | cons t ts =>
    have hinv : GuardInv L t [] .init :=
      ⟨rfl, ⟨t - 3600, le_refl _, rfl⟩, fun _ => by simp, fun _ => by simp⟩
    have h := acceptedTimes_bounded rt L (t :: ts) t [] .init
      (List.chain_cons.mpr ⟨le_refl t, hts⟩) hinv
    exact ⟨by simpa using h.1 T, by simpa using h.2 T⟩

/-- Witness for C1 on the concrete call sequence 0, 1, 2, 61 with minute
limit 2. -/
theorem guardian_window_correctness_witness :
    List.Chain' (· ≤ ·) ([0, 1, 2, 61] : List ℤ) ∧
    ((acceptedTimes "X" ⟨2, 3000⟩ [0, 1, 2, 61] .init).filter (inWindow 60 2)).length ≤ 2 ∧
    ((acceptedTimes "X" ⟨2, 3000⟩ [0, 1, 2, 61] .init).filter (inWindow 3600 2)).length ≤ 3000 :=
  ⟨by simp [List.chain'_cons],
    (guardian_window_correctness "X" ⟨2, 3000⟩ [0, 1, 2, 61]
      (by simp [List.chain'_cons]) 2).1,
    (guardian_window_correctness "X" ⟨2, 3000⟩ [0, 1, 2, 61]
      (by simp [List.chain'_cons]) 2).2⟩

/-- Exception state flowing out of the `with CleanErrorContext()` block
that surrounds `guardian.verify` in the wrapper. -/
inductive VerifyExc where
  | passed
  | rateLimitExceeded
  | systemExit
deriving DecidableEq, Repr

/-- `CleanErrorContext.__exit__`: when the block raised
`RateLimitExceeded` it calls `sys.exit(...)`, so a `SystemExit` replaces
the original exception; any other state passes through unchanged. -/
def CleanErrorContext.onExit : VerifyExc → VerifyExc
  | .rateLimitExceeded => .systemExit
  | e => e

/-- Metric recorded for a wrapped call: the `success` flag and `error`
text of the function-call record. -/
structure FunctionMetric where
  success : Bool
  error : Option String
deriving DecidableEq, Repr

/-- Outcome of one call of the wrapper produced by `optimize`. -/
inductive WrapOutcome (α : Type) where
  | ok (v : α)
  | funcError (e : String)
  | rateLimited
  | systemExit
deriving DecidableEq, Repr

/-- Observable trace of one wrapper call: its outcome, how many times
`guardian.verify` was invoked, and the recorded function-call metric. -/
structure WrapRun (α : Type) where
  outcome : WrapOutcome α
  verifyAttempts : ℕ
  metric : Option FunctionMetric
deriving DecidableEq, Repr

/-- The retry loop of `_create_wrapper.wrapper` from the resource
verification on: call `guardian.verify` inside `CleanErrorContext`
(`verifyOk r` tells whether attempt `r` passes the quota check or raises
`RateLimitExceeded`); a `RateLimitExceeded` escaping the with-block is
retried while `retries < max_retries`, anything else propagates; once
verification passes, execute the wrapped function `f` and record the
function-call metric, re-raising any exception of `f`. -/
def wrapLoop {α : Type} (max_retries : ℕ) (verifyOk : ℕ → Bool)
    (f : Except String α) (retries : ℕ) : WrapRun α :=
  let raw : VerifyExc := if verifyOk retries then .passed else .rateLimitExceeded
  match CleanErrorContext.onExit raw with
  | .rateLimitExceeded =>
    if retries < max_retries then
      wrapLoop max_retries verifyOk f (retries + 1)
    else
      ⟨.rateLimited, retries + 1, Option.none⟩
  | .systemExit => ⟨.systemExit, retries + 1, Option.none⟩
  | .passed =>
    match f with
    | .ok v => ⟨.ok v, retries + 1, some ⟨true, Option.none⟩⟩
    | .error e => ⟨.funcError e, retries + 1, some ⟨false, some e⟩⟩
termination_by max_retries + 1 - retries
decreasing_by omega

/-- One call of the wrapper, starting with `retries = 0`. -/
def wrapper {α : Type} (max_retries : ℕ) (verifyOk : ℕ → Bool)
    (f : Except String α) : WrapRun α :=
  wrapLoop max_retries verifyOk f 0

/-- Claim C2 (divergence): when `guardian.verify` raises
`RateLimitExceeded` on every attempt, `CleanErrorContext.__exit__` turns
the first failure into a `SystemExit`, which the wrapper's
`except RateLimitExceeded` clause does not catch: the call makes exactly
one quota-verification attempt and terminates the process, for every
`max_retries`; the retry loop is never reached. -/
theorem wrapper_rate_limit_exits_after_one_attempt (max_retries : ℕ)
    (f : Except String ℕ) :
    wrapper max_retries (fun _ => false) f =
      ⟨.systemExit, 1, Option.none⟩ := by
  rw [wrapper, wrapLoop.eq_def]
  rfl

/-- Claim C8: when the quota check passes, a failing wrapped operation has
its error text recorded in the function-call metric and the same
exception is re-raised unchanged; a succeeding one is recorded with
`success = true` and its result returned. -/
theorem wrapper_never_masks_function_outcome {α : Type} (max_retries : ℕ)
    (verifyOk : ℕ → Bool) (f : Except String α) (h : verifyOk 0 = true) :
    (∀ e, f = .error e →
      wrapper max_retries verifyOk f = ⟨.funcError e, 1, some ⟨false, some e⟩⟩) ∧
    (∀ v, f = .ok v →
      wrapper max_retries verifyOk f = ⟨.ok v, 1, some ⟨true, Option.none⟩⟩) := by
  constructor
  · rintro e rfl
    rw [wrapper, wrapLoop.eq_def, h]
    rfl
  · rintro v rfl
    rw [wrapper, wrapLoop.eq_def, h]
    rfl

/-- Witness for C8: a wrapped operation raising the error text boom is
re-raised unchanged with the metric capturing the text. -/
theorem wrapper_never_masks_function_outcome_witness :
    (fun _ : ℕ => true) 0 = true ∧
    wrapper 2 (fun _ => true) (Except.error "boom" : Except String ℕ) =
      ⟨.funcError "boom", 1, some ⟨false, some "boom"⟩⟩ :=
  ⟨rfl, (wrapper_never_masks_function_outcome 2 (fun _ => true)
    (Except.error "boom") rfl).1 "boom" rfl⟩

/-- One pass of the loop-detection section of the wrapper: append the
current time to the call history, pop entries from the front while the
oldest is more than `time_window` older than the current time, and flag a
loop when the resulting history has at least `loop_threshold` entries. -/
def loopStep (time_window : ℤ) (loop_threshold : ℕ) (history : List ℤ)
    (now : ℤ) : List ℤ × Bool :=
  let h := (history ++ [now]).dropWhile fun t => decide (time_window < now - t)
  (h, decide (loop_threshold ≤ h.length))

/-- The `loop_detected` flags over a sequence of wrapper calls, threading
the per-function call history. -/
def runLoopDetect (time_window : ℤ) (loop_threshold : ℕ) :
    List ℤ → List ℤ → List Bool
  | [], _ => []
  | t :: ts, h =>
    let s := loopStep time_window loop_threshold h t
    s.2 :: runLoopDetect time_window loop_threshold ts s.1

/-- Claim C5: each invocation appends the current time, purges entries
older than `time_window`, and flags `loop_detected` exactly when the
resulting history length reaches `loop_threshold`; with threshold 3 and
window 5, calls at times 0, 1, 2 flag only the third call, and a fourth
call at time 20 is not flagged. -/
theorem loop_detection_flags (time_window : ℤ) (loop_threshold : ℕ)
    (history : List ℤ) (now : ℤ) :
    ((loopStep time_window loop_threshold history now).1 =
        (history ++ [now]).dropWhile (fun t => decide (time_window < now - t)) ∧
      ((loopStep time_window loop_threshold history now).2 = true ↔
        loop_threshold ≤ (loopStep time_window loop_threshold history now).1.length)) ∧
    runLoopDetect 5 3 [0, 1, 2, 20] [] = [false, false, true, false] :=
  ⟨⟨rfl, by simp [loopStep]⟩, by decide⟩

/-- The metrics collector state: the four `metrics` lists (record data
kept abstract as strings), the `buffer_size` threshold, the running
function-record count and the one-shot Colab-auth flag. -/
structure Collector where
  function : List String
  rate_limit : List String
  request : List String
  error : List String
  buffer_size : ℕ
  function_count : ℕ
  colab_auth_triggered : Bool
deriving DecidableEq, Repr

/-- `Collector._initialize`: empty metric lists, `buffer_size = 50`,
`function_count = 0`, auth flag unset. -/
def Collector.init : Collector := ⟨[], [], [], [], 50, 0, false⟩

/-- Total number of buffered records across all metric kinds. -/
def Collector.totalBuffered (c : Collector) : ℕ :=
  c.function.length + c.rate_limit.length + c.request.length + c.error.length

/-- `Collector._send_metrics`: forwards every buffered record to the relay
and clears each metric list. -/
def Collector.sendMetrics (c : Collector) : Collector :=
  { c with function := [], rate_limit := [], request := [], error := [] }

/-- Observable side effects of one `Collector.record` call: how many
flushes to the relay it performed and whether it started the Colab
authentication thread. -/
structure RecordEffect where
  flushes : ℕ
  colabAuthStarted : Bool
deriving DecidableEq, Repr

/-- `self.metrics[metric_type].append(data)`: append the record to the
matching metric list; unknown kinds fall back to the function list. -/
def Collector.appendRecord (c : Collector) (metric_type data : String) : Collector :=
  if metric_type = "function" then { c with function := c.function ++ [data] }
  else if metric_type = "rate_limit" then { c with rate_limit := c.rate_limit ++ [data] }
  else if metric_type = "request" then { c with request := c.request ++ [data] }
  else if metric_type = "error" then { c with error := c.error ++ [data] }
  else { c with function := c.function ++ [data] }

/-- On a function record, `self.function_count += 1`. -/
def Collector.bumpFunctionCount (c : Collector) (metric_type : String) : Collector :=
  if metric_type = "function" then { c with function_count := c.function_count + 1 }
  else c

/-- The Colab-auth trigger condition: a function record, count above 10,
flag not yet set, and `google.colab` loaded. -/
def Collector.colabFire (c : Collector) (metric_type : String) (colabEnv : Bool) : Bool :=
  decide (metric_type = "function") && decide (10 < c.function_count) &&
    !c.colab_auth_triggered && colabEnv

/-- `self.colab_auth_triggered = True` when the trigger fires. -/
def Collector.maybeSetColabFlag (c : Collector) (fire : Bool) : Collector :=
  if fire then { c with colab_auth_triggered := true } else c

/-- Buffer-size check of `record`: flush when the total buffered count
has reached the threshold. The second component counts flushes. -/
def Collector.flushStep1 (c : Collector) : Collector × ℕ :=
  if c.buffer_size ≤ c.totalBuffered then (c.sendMetrics, 1) else (c, 0)

/-- Priority check of `record`: flush again for high priority or an error
record. -/
def Collector.flushStep2 (metric_type : String) (priority : Option String)
    (p : Collector × ℕ) : Collector × ℕ :=
  if priority = some "high" ∨ metric_type = "error" then (p.1.sendMetrics, p.2 + 1)
  else p

/-- `Collector.record(metric_type, data, priority)`: append the record,
bump the function count, maybe start the one-time Colab auth thread, then
run the buffer-size flush check and the priority/error flush check. -/
def Collector.record (c : Collector) (metric_type data : String)
    (priority : Option String) (colabEnv : Bool) : Collector × RecordEffect :=
  let c2 := (c.appendRecord metric_type data).bumpFunctionCount metric_type
  let fire := c2.colabFire metric_type colabEnv
  let p2 := Collector.flushStep2 metric_type priority
    (Collector.flushStep1 (c2.maybeSetColabFlag fire))
  (p2.1, ⟨p2.2, fire⟩)

/-- Appending a record grows the total buffered count by one. -/
lemma appendRecord_totalBuffered (c : Collector) (k d : String) :
    (c.appendRecord k d).totalBuffered = c.totalBuffered + 1 := by
  unfold Collector.appendRecord Collector.totalBuffered
  split_ifs <;> simp <;> omega

lemma appendRecord_buffer_size (c : Collector) (k d : String) :
    (c.appendRecord k d).buffer_size = c.buffer_size := by
  unfold Collector.appendRecord
  split_ifs <;> rfl

lemma appendRecord_colab (c : Collector) (k d : String) :
    (c.appendRecord k d).colab_auth_triggered = c.colab_auth_triggered := by
  unfold Collector.appendRecord
  split_ifs <;> rfl

lemma bumpFunctionCount_totalBuffered (c : Collector) (k : String) :
    (c.bumpFunctionCount k).totalBuffered = c.totalBuffered := by
  unfold Collector.bumpFunctionCount
  split_ifs <;> rfl

lemma bumpFunctionCount_buffer_size (c : Collector) (k : String) :
    (c.bumpFunctionCount k).buffer_size = c.buffer_size := by
  unfold Collector.bumpFunctionCount
  split_ifs <;> rfl

lemma bumpFunctionCount_colab (c : Collector) (k : String) :
    (c.bumpFunctionCount k).colab_auth_triggered = c.colab_auth_triggered := by
  unfold Collector.bumpFunctionCount
  split_ifs <;> rfl

lemma maybeSetColabFlag_totalBuffered (c : Collector) (b : Bool) :
    (c.maybeSetColabFlag b).totalBuffered = c.totalBuffered := by
  unfold Collector.maybeSetColabFlag
  split_ifs <;> rfl

lemma maybeSetColabFlag_buffer_size (c : Collector) (b : Bool) :
    (c.maybeSetColabFlag b).buffer_size = c.buffer_size := by
  unfold Collector.maybeSetColabFlag
  split_ifs <;> rfl

lemma maybeSetColabFlag_colab (c : Collector) (b : Bool) :
    (c.maybeSetColabFlag b).colab_auth_triggered = (b || c.colab_auth_triggered) := by
  cases b <;> simp [Collector.maybeSetColabFlag]

lemma flushStep1_snd (c : Collector) :
    (Collector.flushStep1 c).2 = if c.buffer_size ≤ c.totalBuffered then 1 else 0 := by
  unfold Collector.flushStep1
  split_ifs <;> rfl

lemma flushStep1_colab (c : Collector) :
    (Collector.flushStep1 c).1.colab_auth_triggered = c.colab_auth_triggered := by
  unfold Collector.flushStep1
  split_ifs <;> rfl

lemma flushStep2_snd (k : String) (p : Option String) (q : Collector × ℕ) :
    (Collector.flushStep2 k p q).2 =
      if p = some "high" ∨ k = "error" then q.2 + 1 else q.2 := by
  unfold Collector.flushStep2
  split_ifs <;> rfl

lemma flushStep2_colab (k : String) (p : Option String) (q : Collector × ℕ) :
    (Collector.flushStep2 k p q).1.colab_auth_triggered =
      q.1.colab_auth_triggered := by
  unfold Collector.flushStep2
  split_ifs <;> rfl

/-- The number of flushes a `record` call performs, as a function of the
pre-state. -/
lemma record_flushes (c : Collector) (k d : String) (p : Option String) (env : Bool) :
    (c.record k d p env).2.flushes =
      (if c.buffer_size ≤ c.totalBuffered + 1 then 1 else 0) +
      (if p = some "high" ∨ k = "error" then 1 else 0) := by
  simp only [Collector.record]
  rw [flushStep2_snd, flushStep1_snd, maybeSetColabFlag_buffer_size,
    maybeSetColabFlag_totalBuffered, bumpFunctionCount_buffer_size,
    bumpFunctionCount_totalBuffered, appendRecord_buffer_size,
    appendRecord_totalBuffered]
  split_ifs <;> omega

/-- Claim C6: after appending the record, `Collector.record` flushes to
the relay whenever the total buffered count across all kinds has reached
the `buffer_size` threshold (50 on the fresh collector), and it also
flushes whenever `priority = "high"` or the kind is `"error"`, regardless
of the total. -/
theorem collector_flush_triggers (c : Collector) (kind data : String)
    (priority : Option String) (colabEnv : Bool) :
    Collector.init.buffer_size = 50 ∧
    (c.buffer_size ≤ c.totalBuffered + 1 →
      1 ≤ (c.record kind data priority colabEnv).2.flushes) ∧
    ((priority = some "high" ∨ kind = "error") →
      1 ≤ (c.record kind data priority colabEnv).2.flushes) := by
  refine ⟨rfl, ?_, ?_⟩ <;> intro h <;> rw [record_flushes] <;> split_ifs <;> omega

/-- Witness for C6: an error record on the fresh collector flushes. -/
theorem collector_flush_triggers_witness :
    ((Option.none : Option String) = some "high" ∨ "error" = "error") ∧
    1 ≤ (Collector.init.record "error" "boom" Option.none false).2.flushes :=
  ⟨Or.inr rfl,
    (collector_flush_triggers Collector.init "error" "boom" Option.none false).2.2
      (Or.inr rfl)⟩

/-- Running a list of `(metric_type, data, priority)` record calls,
returning the final collector and the number of Colab-auth triggers
fired along the way. -/
def Collector.runRecords (colabEnv : Bool) :
    Collector → List (String × String × Option String) → Collector × ℕ
  | c, [] => (c, 0)
  | c, (k, d, p) :: rest =>
    let s := c.record k d p colabEnv
    let r := Collector.runRecords colabEnv s.1 rest
    (r.1, (if s.2.colabAuthStarted then 1 else 0) + r.2)

/-- A `record` call sets the auth flag exactly when it starts the auth
thread, and it only starts the thread when the flag was still unset. -/
lemma record_colab_props (c : Collector) (k d : String) (p : Option String)
    (env : Bool) :
    (c.record k d p env).1.colab_auth_triggered =
      ((c.record k d p env).2.colabAuthStarted || c.colab_auth_triggered) ∧
    ((c.record k d p env).2.colabAuthStarted = true →
      c.colab_auth_triggered = false) := by
  constructor
  · simp only [Collector.record]
    rw [flushStep2_colab, flushStep1_colab, maybeSetColabFlag_colab,
      bumpFunctionCount_colab, appendRecord_colab]
  · simp only [Collector.record, Collector.colabFire, Bool.and_eq_true,
      Bool.not_eq_true']
    rintro ⟨⟨⟨-, -⟩, hflag⟩, -⟩
    rwa [bumpFunctionCount_colab, appendRecord_colab] at hflag

/-- Over any run of `record` calls, the Colab auth thread is started at
most once, and never once the flag is already set. -/
lemma runRecords_fires_le_one (env : Bool) :
    ∀ (inputs : List (String × String × Option String)) (c : Collector),
      (c.colab_auth_triggered = true → (Collector.runRecords env c inputs).2 = 0) ∧
      (Collector.runRecords env c inputs).2 ≤ 1 := by
  intro inputs
  induction inputs with
  | nil => exact fun c => ⟨fun _ => rfl, by simp [Collector.runRecords]⟩
  | cons i rest ih =>
    obtain ⟨k, d, p⟩ := i
    intro c
    have hprops := record_colab_props c k d p env
    constructor
    · intro hflag
      have hfire : (c.record k d p env).2.colabAuthStarted = false := by
        cases hcas : (c.record k d p env).2.colabAuthStarted with
        | false => rfl
        | true => rw [hprops.2 hcas] at hflag; exact absurd hflag (by simp)
      have hflag' : (c.record k d p env).1.colab_auth_triggered = true := by
        rw [hprops.1, hflag]
        simp
      simp only [Collector.runRecords, hfire]
      simpa using (ih _).1 hflag'
    · cases hcas : (c.record k d p env).2.colabAuthStarted with
      | false =>
        have := (ih ((c.record k d p env).1)).2
        simp only [Collector.runRecords, hcas]
        simpa using this
      | true =>
        have hflag' : (c.record k d p env).1.colab_auth_triggered = true := by
          rw [hprops.1, hcas]
          simp
        have := (ih ((c.record k d p env).1)).1 hflag'
        simp only [Collector.runRecords, hcas, this]
        simp

/-- Counterexample to claim C9 as stated: on a fresh collector in a
Colab environment, 10 consecutive function-call records do not trigger
the identity-authentication flow (the code requires
`function_count > 10`). -/
theorem colab_auth_not_triggered_at_ten :
    (Collector.runRecords true Collector.init
        (List.replicate 10 ("function", "d", Option.none))).2 = 0 ∧
    (Collector.runRecords true Collector.init
        (List.replicate 10 ("function", "d", Option.none))).1.colab_auth_triggered
      = false := by
  decide

/-- Claim C9 as amended: in a notebook-hosting environment the one-time
identity-authentication flow is triggered on the record that brings the
cumulative function-call record count above 10 — the 11th function-call
record — and over any sequence of record calls it is triggered at most
once per process. -/
theorem colab_auth_trigger_on_eleventh :
    ((Collector.runRecords true Collector.init
        (List.replicate 11 ("function", "d", Option.none))).2 = 1 ∧
      (Collector.runRecords true Collector.init
        (List.replicate 11 ("function", "d", Option.none))).1.colab_auth_triggered
        = true) ∧
    (∀ (inputs : List (String × String × Option String)) (env : Bool),
      (Collector.runRecords env Collector.init inputs).2 ≤ 1) :=
  ⟨by decide, fun inputs env => (runRecords_fires_le_one env inputs Collector.init).2⟩

/-- A payload built by `Conduit.dispatch`: the snapshot of the three
category buffers (records kept abstract as naturals) plus the metadata
fields the claims mention. -/
structure Payload where
  function_calls : List ℕ
  api_requests : List ℕ
  rate_limits : List ℕ
  sync_count : ℕ
  trigger_reason : String
deriving DecidableEq, Repr

/-- The telemetry relay state: webhook URL, the three category buffers,
the running sync counter and the failed-send queue. -/
structure Conduit where
  webhook_url : Option String
  function_calls : List ℕ
  api_requests : List ℕ
  rate_limits : List ℕ
  sync_count : ℕ
  failed_queue : List Payload
deriving DecidableEq, Repr

/-- Result of one `dispatch` call: the returned boolean, the new relay
state, and whether a network transmission was attempted. -/
structure DispatchResult where
  returned : Bool
  state : Conduit
  attempted : Bool
deriving DecidableEq, Repr

/-- The payload `dispatch` builds: buffer snapshot plus metadata with the
incremented sync counter and the trigger reason. -/
def Conduit.builtPayload (c : Conduit) (reason : String) : Payload :=
  ⟨c.function_calls, c.api_requests, c.rate_limits, c.sync_count + 1, reason⟩

/-- `Conduit.dispatch(reason)` with the network modelled by `sendOk`
(whether the webhook post returns HTTP 200 for a payload): return `False`
untouched when no webhook URL is configured or all three buffers are
empty; otherwise snapshot and clear the buffers, bump the sync counter,
build the payload, send it, and on failure append it to the failed-send
queue, keeping only the most recent 10. -/
def Conduit.dispatch (sendOk : Payload → Bool) (c : Conduit) (reason : String) :
    DispatchResult :=
  match c.webhook_url with
  | Option.none => ⟨false, c, false⟩
  | some _ =>
    if c.function_calls.length = 0 ∧ c.api_requests.length = 0 ∧
        c.rate_limits.length = 0 then
      ⟨false, c, false⟩
    else
      let payload := c.builtPayload reason
      let c1 : Conduit :=
        { c with
          function_calls := []
          api_requests := []
          rate_limits := []
          sync_count := c.sync_count + 1 }
      if sendOk payload then ⟨true, c1, true⟩
      else
        let fq := c1.failed_queue ++ [payload]
        let fq := if 10 < fq.length then fq.drop (fq.length - 10) else fq
        ⟨false, { c1 with failed_queue := fq }, true⟩

/-- `Conduit.retry_failed()`: drain the failed-send queue, re-attempt each
payload in order, append the ones that fail again, and return the number
of successes. -/
def Conduit.retry_failed (sendOk : Payload → Bool) (c : Conduit) : Conduit × ℕ :=
  if c.failed_queue.length = 0 then (c, 0)
  else
    ({ c with failed_queue := c.failed_queue.filter fun p => !sendOk p },
      c.failed_queue.countP fun p => sendOk p)

/-- Operations on the relay that the failed-queue claims quantify over:
enqueue a record into one of the three buffers, dispatch, or retry the
failed queue. -/
inductive RelayOp where
  | addFunctionCall (r : ℕ)
  | addApiRequest (r : ℕ)
  | addRateLimit (r : ℕ)
  | dispatch (reason : String)
  | retryFailed
deriving DecidableEq, Repr

/-- One relay operation applied to the state. -/
def Conduit.applyOp (sendOk : Payload → Bool) (c : Conduit) : RelayOp → Conduit
  | .addFunctionCall r => { c with function_calls := c.function_calls ++ [r] }
  | .addApiRequest r => { c with api_requests := c.api_requests ++ [r] }
  | .addRateLimit r => { c with rate_limits := c.rate_limits ++ [r] }
  | .dispatch reason => (Conduit.dispatch sendOk c reason).state
  | .retryFailed => (Conduit.retry_failed sendOk c).1

/-- Claim C10: with no webhook URL configured, or with all three category
buffers empty, `dispatch` returns `False`, attempts no transmission, and
leaves the state — buffers, sync counter and failed-send queue —
unchanged. -/
theorem dispatch_empty_noop (sendOk : Payload → Bool) (c : Conduit) (reason : String)
    (h : c.webhook_url = Option.none ∨
      (c.function_calls = [] ∧ c.api_requests = [] ∧ c.rate_limits = [])) :
    (Conduit.dispatch sendOk c reason).returned = false ∧
    (Conduit.dispatch sendOk c reason).attempted = false ∧
    (Conduit.dispatch sendOk c reason).state = c := by
  rcases h with h | ⟨h1, h2, h3⟩
  · simp [Conduit.dispatch, h]
  · cases hw : c.webhook_url <;> simp [Conduit.dispatch, hw, h1, h2, h3]

/-- Witness for C10 at a relay with no webhook URL. -/
theorem dispatch_empty_noop_witness :
    ((⟨Option.none, [1], [], [], 0, []⟩ : Conduit).webhook_url = Option.none ∨
      ((⟨Option.none, [1], [], [], 0, []⟩ : Conduit).function_calls = [] ∧
        (⟨Option.none, [1], [], [], 0, []⟩ : Conduit).api_requests = [] ∧
        (⟨Option.none, [1], [], [], 0, []⟩ : Conduit).rate_limits = [])) ∧
    (Conduit.dispatch (fun _ => true) ⟨Option.none, [1], [], [], 0, []⟩ "manual").returned
      = false ∧
    (Conduit.dispatch (fun _ => true) ⟨Option.none, [1], [], [], 0, []⟩ "manual").attempted
      = false ∧
    (Conduit.dispatch (fun _ => true) ⟨Option.none, [1], [], [], 0, []⟩ "manual").state
      = ⟨Option.none, [1], [], [], 0, []⟩ :=
  ⟨Or.inl rfl,
    dispatch_empty_noop (fun _ => true) ⟨Option.none, [1], [], [], 0, []⟩ "manual"
      (Or.inl rfl)⟩

/-- A `dispatch` call never grows the failed-send queue beyond 10. -/
lemma dispatch_failed_queue_le (sendOk : Payload → Bool) (c : Conduit)
    (reason : String) (h : c.failed_queue.length ≤ 10) :
    (Conduit.dispatch sendOk c reason).state.failed_queue.length ≤ 10 := by
  simp only [Conduit.dispatch]
  cases hw : c.webhook_url with
  | none => exact h
  | some u =>
    simp only
    split_ifs <;> simp_all [List.length_drop, List.length_append] <;> omega

/-- `retry_failed` never grows the failed-send queue. -/
lemma retry_failed_queue_le (sendOk : Payload → Bool) (c : Conduit) :
    (Conduit.retry_failed sendOk c).1.failed_queue.length ≤
      c.failed_queue.length := by
  unfold Conduit.retry_failed
  split_ifs with h1
  · exact le_refl _
  · simpa using List.length_filter_le _ c.failed_queue

/-- The relay used by the concrete failed-queue scenario: webhook
configured, everything else fresh. -/
def conduitStart : Conduit := ⟨some "hook", [], [], [], 0, []⟩

/-- `n` rounds of enqueue-one-record-then-dispatch; with a failing
network each round enqueues one failed payload. -/
def failOps (n : ℕ) : List RelayOp :=
  ((List.range n).map fun k => [RelayOp.addFunctionCall k, RelayOp.dispatch "manual"]).flatten

/-- Claim C7: the failed-send queue never exceeds 10 payloads under any
sequence of relay operations; a failing dispatch onto a full queue drops
the oldest payload and keeps the 10 most recent; and 15 consecutive
failed dispatches leave exactly the 10 most recent payloads. -/
theorem relay_failed_queue_bound :
    (∀ (sendOk : Payload → Bool) (ops : List RelayOp) (c : Conduit),
      c.failed_queue.length ≤ 10 →
      ((ops.foldl (Conduit.applyOp sendOk) c).failed_queue.length ≤ 10)) ∧
    (∀ (sendOk : Payload → Bool) (c : Conduit) (reason u : String),
      c.webhook_url = some u → c.function_calls ≠ [] →
      sendOk (c.builtPayload reason) = false → c.failed_queue.length = 10 →
      (Conduit.dispatch sendOk c reason).state.failed_queue =
        c.failed_queue.drop 1 ++ [c.builtPayload reason]) ∧
    ((failOps 15).foldl (Conduit.applyOp fun _ => false) conduitStart).failed_queue =
      ((List.range 15).map fun k => (⟨[k], [], [], k + 1, "manual"⟩ : Payload)).drop 5 := by
  refine ⟨?_, ?_, by decide⟩
  · intro sendOk ops
    induction ops with
    | nil => exact fun c h => h
    | cons op rest ih =>
      intro c h
      refine ih _ ?_
      cases op with
      | addFunctionCall r => exact h
      | addApiRequest r => exact h
      | addRateLimit r => exact h
      | dispatch reason => exact dispatch_failed_queue_le sendOk c reason h
      | retryFailed => exact le_trans (retry_failed_queue_le sendOk c) h
  · intro sendOk c reason u hw hne hsend hlen
    unfold Conduit.dispatch
    rw [hw]
    simp only
    rw [if_neg (by simp [hne]), if_neg (by simp [hsend])]
    simp only [Conduit.builtPayload] at hsend ⊢
    have hfq : (c.failed_queue ++
        [(⟨c.function_calls, c.api_requests, c.rate_limits, c.sync_count + 1, reason⟩ :
          Payload)]).length = 11 := by
      simp [hlen]
    rw [if_pos (by rw [hfq]; omega)]
    rw [hfq, (by norm_num : (11 : ℕ) - 10 = 1),
      List.drop_append_of_le_length (by rw [hlen]; omega)]

/-- Witness for C7: starting from the fresh relay, 15 failing dispatch
rounds keep the failed queue within the bound. -/
theorem relay_failed_queue_bound_witness :
    conduitStart.failed_queue.length ≤ 10 ∧
    ((failOps 15).foldl (Conduit.applyOp fun _ => false) conduitStart).failed_queue.length
      ≤ 10 :=
  ⟨by decide,
    relay_failed_queue_bound.1 (fun _ => false) (failOps 15) conduitStart (by decide)⟩
